import Mathlib

/-!
Verification of the media submission pipeline of reddit_img.py.

The file shallowly embeds the pipeline's functions: the two ffprobe-based
validators, the two transcoding policies, the lease-upload protocol, the
S3 upload, and the two submission/readiness-polling paths.  External
effects (subprocess calls, HTTP requests) are modelled by explicit
environment values recording each call's observable outcome; floats are
modelled by rationals; exceptions by explicit outcome constructors or
Except values.  Timing (time.sleep) is not modelled; retry counts are.
-/

/-- One stream entry of an ffprobe report: its codec kind and codec name
(the dicts produced by the -show_entries stream=codec_name,codec_type probe). -/
structure MediaStream where
  codec_type : String
  codec_name : String
deriving DecidableEq

/-- Parsed ffprobe format/stream report: duration in seconds (a Python float,
modelled as a rational), byte size, and the list of streams. -/
structure ProbeInfo where
  duration : ℚ
  size : ℕ
  streams : List MediaStream
deriving DecidableEq

/-- Outcome of an ffprobe run on an artifact. `failure` covers a nonzero
exit status and unparsable or incomplete JSON output, all of which raise
inside the validators and are treated as validation failure. -/
inductive ProbeOutcome where
  | failure
  | ok (info : ProbeInfo)
deriving DecidableEq

/-- validate_video (reddit_img.py lines 124-162): the strict pre-flight
validator.  If ffprobe is absent it returns True; a probe failure returns
False; otherwise duration below 2 seconds or a missing audio stream
returns False, else True. -/
def validate_video (ffprobe_available : Bool) (probe : ProbeOutcome) : Bool :=
  if ffprobe_available = false then true
  else
    match probe with
    | .failure => false
    | .ok info =>
      if info.duration < 2 then false
      else if (info.streams.any fun s => s.codec_type == "audio") = false then false
      else true

/-- is_valid_mp4 (reddit_img.py lines 164-203): the basic playable-mp4
validator.  If ffprobe is absent it returns True; a probe failure returns
False; otherwise it rejects duration outside (0, 900], size above
1_000_000_000 bytes, and the absence of any video stream. -/
def is_valid_mp4 (ffprobe_available : Bool) (probe : ProbeOutcome) : Bool :=
  if ffprobe_available = false then true
  else
    match probe with
    | .failure => false
    | .ok info =>
      if info.duration ≤ 0 ∨ 900 < info.duration then false
      else if 1000000000 < info.size then false
      else if (info.streams.any fun s => s.codec_type == "video") = false then false
      else true

/-- Observable events emitted by the resize policy convert_video: the
dimensions probe, the ffmpeg encode, and the is_valid_mp4 re-check of the
encoded output (with its verdict). -/
inductive ConvertEvent where
  | probeCall
  | encodeCall
  | validatorCall (passed : Bool)
deriving DecidableEq

/-- Environment of one convert_video run: whether ffmpeg is on PATH, the
width/height probe result (none = probe raised), whether the ffmpeg encode
exited zero, and the ffprobe view of the encoded output used by the
is_valid_mp4 re-check. -/
structure ConvertEnv where
  ffmpeg_available : Bool
  dims : Option (ℕ × ℕ)
  encode_ok : Bool
  out_ffprobe_available : Bool
  out_probe : ProbeOutcome

/-- Which artifact convert_video hands back: the untouched input (its
fallback on any failure, including a failed re-validation) or the encoded
output file. -/
inductive ConvertReturn where
  | originalInput
  | convertedOutput
deriving DecidableEq

/-- convert_video (reddit_img.py lines 205-265): the resize policy.  Missing
ffmpeg returns the input unchanged; a failed dimensions probe or encode
raises, is caught, and returns the input; a successful encode is re-checked
with is_valid_mp4 and only returned if that check passes, otherwise the
raised failure is caught and the input is returned.  The orientation-based
scale filter only chooses encoder arguments and is elided. -/
def convert_video (env : ConvertEnv) : ConvertReturn × List ConvertEvent :=
  if env.ffmpeg_available = false then (.originalInput, [])
  else
    match env.dims with
    | none => (.originalInput, [.probeCall])
    | some _ =>
      if env.encode_ok = false then (.originalInput, [.probeCall, .encodeCall])
      else if is_valid_mp4 env.out_ffprobe_available env.out_probe then
        (.convertedOutput, [.probeCall, .encodeCall, .validatorCall true])
      else
        (.originalInput, [.probeCall, .encodeCall, .validatorCall false])

/-- Extra ffmpeg arguments assembled by validate_and_convert_video:
a -t duration cap and a -b:v target video bitrate. -/
inductive ConversionParam where
  | timeLimit (seconds : ℕ)
  | videoBitrate (bps : ℤ)
deriving DecidableEq

/-- Observable events emitted by the constraint-trim policy
validate_and_convert_video: the duration/size probe, the ffmpeg re-encode
with its assembled parameters, and (never emitted by the source) a
validator re-check. -/
inductive TrimEvent where
  | probeCall
  | encodeCall (conversion_params : List ConversionParam)
  | validatorCall (passed : Bool)
deriving DecidableEq

/-- Which data validate_and_convert_video hands back: the original buffer
or the re-encoded one. -/
inductive TrimReturn where
  | originalData
  | convertedData
deriving DecidableEq

/-- Environment of one validate_and_convert_video run: the parsed
duration/size probe (none = unparsable probe output, which raises and is
caught) and whether the ffmpeg re-encode exited zero. -/
structure TrimEnv where
  probe : Option (ℚ × ℕ)
  encode_ok : Bool

/-- Python int() applied to a float value: truncation toward zero. -/
def pyInt (q : ℚ) : ℤ := if q < 0 then ⌈q⌉ else ⌊q⌋

/-- The conversion_params list assembled in reddit_img.py lines 606-620:
a -t 840 cap when duration exceeds 840 s, then a -b:v bitrate of
int(700_000_000 * 8 / duration) when the size exceeds 1 GB. -/
def trim_params (duration : ℚ) (file_size : ℕ) : List ConversionParam :=
  (if 840 < duration then [ConversionParam.timeLimit 840] else []) ++
  (if 1000000000 < file_size then
      [ConversionParam.videoBitrate (pyInt ((700000000 : ℚ) * 8 / duration))] else [])

/-- validate_and_convert_video (reddit_img.py lines 582-670): the
constraint-trim policy.  An unparsable probe raises and is caught,
yielding None.  A duration of zero together with an oversize file divides
by zero while computing the bitrate, raising, caught, None.  If either
constraint is violated, ffmpeg re-encodes with the assembled parameters:
a nonzero exit raises (caught, None); success returns the converted bytes
with no further validation.  Otherwise the original data is returned. -/
def validate_and_convert_video (env : TrimEnv) : Option TrimReturn × List TrimEvent :=
  match env.probe with
  | none => (none, [.probeCall])
  | some (duration, file_size) =>
    if 1000000000 < file_size ∧ duration = 0 then (none, [.probeCall])
    else if 840 < duration ∨ 1000000000 < file_size then
      if env.encode_ok then
        (some .convertedData, [.probeCall, .encodeCall (trim_params duration file_size)])
      else (none, [.probeCall, .encodeCall (trim_params duration file_size)])
    else (some .originalData, [.probeCall])

/-- Observable shape of a lease-endpoint HTTP response: whether
raise_for_status passed, and whether the JSON body carries the action URL
and the fields mapping. -/
structure LeaseResponse where
  http_ok : Bool
  has_action : Bool
  has_fields : Bool
deriving DecidableEq

/-- The exceptions a lease request can raise internally: an HTTPError from
raise_for_status (which carries a response attribute) or the plain
Exception raised for a body missing fields or action (which does not). -/
inductive LeaseError where
  | httpError
  | invalidLease
deriving DecidableEq

/-- Python hasattr(e, response) for each lease-path exception:
requests.HTTPError carries a response attribute, a plain Exception does not. -/
def leaseErrorHasResponseAttr : LeaseError → Bool
  | .httpError => true
  | .invalidLease => false

/-- The shared try-body of both lease functions (reddit_img.py lines
354-373 and 405-424): raise_for_status, then raise on a body missing
fields or action, else the lease. -/
def lease_request_body (resp : LeaseResponse) : Except LeaseError Unit :=
  if resp.http_ok = false then .error .httpError
  else if resp.has_fields = false ∨ resp.has_action = false then .error .invalidLease
  else .ok ()

/-- What a lease function call looks like to its caller: a lease value, a
silent None return, or a propagated exception. -/
inductive LeaseOutcome where
  | leaseReturned
  | noneReturned
  | raised (e : LeaseError)
deriving DecidableEq

/-- get_video_upload_lease (reddit_img.py lines 330-379).  Its except
block re-raises only inside the hasattr(e, response) branch, so an
invalid-lease Exception (no response attribute) is swallowed and the
function falls through, returning None. -/
def get_video_upload_lease (resp : LeaseResponse) : LeaseOutcome :=
  match lease_request_body resp with
  | .ok _ => .leaseReturned
  | .error e => if leaseErrorHasResponseAttr e then .raised e else .noneReturned

/-- get_thumbnail_upload_lease (reddit_img.py lines 381-430).  Its except
block ends with an unconditional raise, so every internal failure
propagates to the caller. -/
def get_thumbnail_upload_lease (resp : LeaseResponse) : LeaseOutcome :=
  match lease_request_body resp with
  | .ok _ => .leaseReturned
  | .error e => .raised e

/-- Observable shape of the S3 upload exchange: whether the multipart POST
passed raise_for_status, and the Location element of the XML body —
none when the element is absent (or the XML is unparsable, which raises the
same way), some t when present with text t (ElementTree gives text = None,
modelled as t = none, for an empty element). -/
structure S3Response where
  http_ok : Bool
  location : Option (Option String)
deriving DecidableEq

/-- What upload_to_s3 looks like to its caller: a returned location value
(possibly the missing text of an empty element) or a propagated exception. -/
inductive S3Outcome where
  | returned (loc : Option String)
  | raised
deriving DecidableEq

/-- upload_to_s3 (reddit_img.py lines 432-458).  An HTTP error raises; a
missing Location element makes root.find return None, so .text raises
AttributeError, caught and re-raised; a present element returns its text,
which ElementTree reports as None for an empty element. -/
def upload_to_s3 (resp : S3Response) : S3Outcome :=
  if resp.http_ok = false then .raised
  else
    match resp.location with
    | none => .raised
    | some t => .returned t

/-- One iteration of the readiness-poll loop in safe_submit_video
(reddit_img.py lines 732-764), as seen from outside: the re-fetch raised;
the fetched handle has no media payload (the ghost branch, whose delete
call may itself raise); or media is present, with the fallback URL's
presence and the HEAD probe's result (none = the HEAD call raised). -/
inductive AttemptEnv where
  | fetchError
  | ghost (deleteOk : Bool)
  | media (fallbackUrl : Bool) (headStatus : Option ℕ)
deriving DecidableEq

/-- Terminal disposition of the poll loop: returned the handle (Ready),
deleted a ghost and restarted, fell off the loop (returns None), or
re-raised out of the last attempt (caught by the function's outer handler). -/
inductive PollStep where
  | ready
  | ghostRestart
  | timedOutNone
  | raisedOut
deriving DecidableEq

/-- The poll loop's disposition together with how many delete calls it
issued and how many times it re-fetched the handle. -/
structure PollStats where
  step : PollStep
  deletes : ℕ
  fetches : ℕ
deriving DecidableEq

/-- The for-attempt loop of reddit_img.py lines 732-764 over the per-attempt
environments, in order.  A ghost with a successful delete returns into the
recursive restart at once; exceptions on the last attempt re-raise, earlier
ones continue; a 200 HEAD on the fallback URL returns the handle; any other
outcome keeps polling until the list is exhausted. -/
def poll_loop : List AttemptEnv → PollStats
  | [] => ⟨.timedOutNone, 0, 0⟩
  | e :: rest =>
    match e with
    | .fetchError =>
      if rest.isEmpty then ⟨.raisedOut, 0, 1⟩
      else
        let s := poll_loop rest
        ⟨s.step, s.deletes, s.fetches + 1⟩
    | .ghost deleteOk =>
      if deleteOk then ⟨.ghostRestart, 1, 1⟩
      else if rest.isEmpty then ⟨.raisedOut, 1, 1⟩
      else
        let s := poll_loop rest
        ⟨s.step, s.deletes + 1, s.fetches + 1⟩
    | .media fallbackUrl headStatus =>
      if fallbackUrl then
        match headStatus with
        | none =>
          if rest.isEmpty then ⟨.raisedOut, 0, 1⟩
          else
            let s := poll_loop rest
            ⟨s.step, s.deletes, s.fetches + 1⟩
        | some code =>
          if code = 200 then ⟨.ready, 0, 1⟩
          else
            let s := poll_loop rest
            ⟨s.step, s.deletes, s.fetches + 1⟩
      else
        let s := poll_loop rest
        ⟨s.step, s.deletes, s.fetches + 1⟩

/-- A poll attempt that neither succeeds nor detects a ghost: the loop
moves on to the next attempt. -/
def poll_continues : AttemptEnv → Bool
  | .fetchError => true
  | .ghost _ => false
  | .media fallbackUrl headStatus =>
    !(fallbackUrl && decide (headStatus = some 200))

/-- Environment of one safe_submit_video invocation: the ffprobe view of
the input for the is_valid_mp4 gate, whether thumbnail generation
succeeded (best-effort, never branches control flow), the value returned
by submit_video_direct (which swallows its own errors and returns None on
failure), whether the PRAW submit_video call returned without raising,
whether the title search recovered the new post, and the per-attempt poll
environments. -/
structure SubmitEnv where
  ffprobe_available : Bool
  preProbe : ProbeOutcome
  thumbnailOk : Bool
  direct : Option String
  prawOk : Bool
  found : Bool
  poll : ℕ → AttemptEnv

/-- MAX_RETRIES = 15 attempts of the safe_submit_video poll loop, in order. -/
def pollEnvs (e : SubmitEnv) : List AttemptEnv :=
  (List.range 15).map e.poll

/-- Disposition of one safe_submit_video invocation before its outer
exception handler: the direct-path URL was returned, the polled handle was
returned ready, None was returned because the new post was never found,
the poll timed out (returns None), or a ghost was deleted and the whole
pipeline must re-run. -/
inductive OnceOutcome where
  | directUrl
  | ready (st : PollStats)
  | noneBeforePoll
  | timedOut (st : PollStats)
  | restart (st : PollStats)
deriving DecidableEq

/-- Exceptions that reach safe_submit_video's outer handler: the
validation-gate raise, a raise out of the PRAW fallback submit, a re-raise
out of the poll loop's last attempt, and the RecursionError produced when
the ghost-restart recursion exhausts the interpreter's stack budget. -/
inductive PErr where
  | validationFailed
  | prawRaised
  | pollRaised (st : PollStats)
  | recursionLimit
deriving DecidableEq

/-- The try-body of one safe_submit_video invocation (reddit_img.py lines
674-767): the is_valid_mp4 gate raises on failure; a truthy direct
submission returns its URL; the PRAW fallback may raise; a post not found
by the title search returns None; otherwise the poll loop runs and its
disposition is returned or re-raised. -/
def run_once_exc (e : SubmitEnv) : Except PErr OnceOutcome :=
  if is_valid_mp4 e.ffprobe_available e.preProbe then
    match e.direct with
    | some _ => .ok .directUrl
    | none =>
      if e.prawOk then
        if e.found then
          let st := poll_loop (pollEnvs e)
          match st.step with
          | .ready => .ok (.ready st)
          | .ghostRestart => .ok (.restart st)
          | .timedOutNone => .ok (.timedOut st)
          | .raisedOut => .error (.pollRaised st)
        else .ok .noneBeforePoll
      else .error .prawRaised
  else .error .validationFailed

/-- What safe_submit_video hands its caller: the direct-path post URL, the
polled submission handle, or None. -/
inductive SubmitOutcome where
  | directOut
  | handleOut
  | noneOut
deriving DecidableEq

/-- safe_submit_video with its exception behaviour explicit.  Fuel models
the interpreter's recursion budget: at zero the recursive call raises
RecursionError into the calling frame.  Each frame runs its try-body, lets
a ghost restart recurse (inside the try), and finally applies its outer
except handler, which converts every escaped exception into a None return. -/
def safe_submit_exc : ℕ → (ℕ → SubmitEnv) → Except PErr SubmitOutcome
  | 0, _ => .error .recursionLimit
  | fuel + 1, envs =>
    let handled : Except PErr SubmitOutcome :=
      match run_once_exc (envs 0) with
      | .error pe => .error pe
      | .ok .directUrl => .ok .directOut
      | .ok (.ready _) => .ok .handleOut
      | .ok .noneBeforePoll => .ok .noneOut
      | .ok (.timedOut _) => .ok .noneOut
      | .ok (.restart _) => safe_submit_exc fuel (fun i => envs (i + 1))
    match handled with
    | .error _ => .ok .noneOut
    | .ok r => .ok r

/-- The value safe_submit_video's caller sees; a RecursionError at fuel
zero is caught by the calling frame and becomes its None return. -/
def safe_submit_video (fuel : ℕ) (envs : ℕ → SubmitEnv) : SubmitOutcome :=
  match safe_submit_exc fuel envs with
  | .ok r => r
  | .error _ => .noneOut

/-- Whether an Except value carries a normal result. -/
def exceptOk : Except PErr SubmitOutcome → Bool
  | .ok _ => true
  | .error _ => false

/-- One iteration of the simpler poll loop in upload_to_reddit
(reddit_img.py lines 919-936): the readiness check raised (caught, loop
continues), the media payload is not yet attached, or it is attached. -/
inductive UploadAttempt where
  | checkRaised
  | notReady
  | ready
deriving DecidableEq

/-- The for-attempt loop of reddit_img.py lines 922-936: true when some
attempt saw the reddit_video media attached (the early permalink return),
false when all attempts were exhausted. -/
def upload_media_wait : List UploadAttempt → Bool
  | [] => false
  | a :: rest =>
    match a with
    | .ready => true
    | _ => upload_media_wait rest

/-- The permalink upload_to_reddit returns after polling: from the
in-loop return when media became ready, or from the fall-through return
after the loop (the video may still be processing).  Both are the created
handle's permalink; no path out of this loop raises. -/
inductive UploadPollResult where
  | permalinkReady
  | permalinkProcessing
deriving DecidableEq

/-- The polling tail of upload_to_reddit with max_retries = 6
(reddit_img.py lines 919-939). -/
def upload_to_reddit_poll (env : ℕ → UploadAttempt) : UploadPollResult :=
  if upload_media_wait ((List.range 6).map env) then .permalinkReady
  else .permalinkProcessing

/-- A probe report of a healthy 30-second clip with video and audio. -/
def sampleGoodInfo : ProbeInfo :=
  ⟨30, 50000000, [⟨"video", "h264"⟩, ⟨"audio", "aac"⟩]⟩

/-- A submission environment that reaches the poll loop and sees a ghost
handle on the second fetch (the first fetch sees unready media). -/
def ghostEnv : SubmitEnv where
  ffprobe_available := true
  preProbe := .ok sampleGoodInfo
  thumbnailOk := true
  direct := none
  prawOk := true
  found := true
  poll := fun i => if i = 0 then .media true (some 404) else .ghost true

/-- A submission environment that reaches the poll loop and sees media
that never passes the HEAD existence check on any of the 15 attempts. -/
def timeoutEnv : SubmitEnv where
  ffprobe_available := true
  preProbe := .ok sampleGoodInfo
  thumbnailOk := true
  direct := none
  prawOk := true
  found := true
  poll := fun _ => .media true (some 404)

/-- A resize-policy environment whose encode succeeds and whose output
probes as a healthy clip. -/
def convertOkEnv : ConvertEnv where
  ffmpeg_available := true
  dims := some (1920, 1080)
  encode_ok := true
  out_ffprobe_available := true
  out_probe := .ok sampleGoodInfo

/-- A probe report of a clip carrying a video stream but no audio stream. -/
def noAudioInfo : ProbeInfo :=
  ⟨30, 50000000, [⟨"video", "h264"⟩]⟩

/-- A probe report of a one-second clip with video and audio. -/
def shortClipInfo : ProbeInfo :=
  ⟨1, 1000, [⟨"video", "h264"⟩, ⟨"audio", "aac"⟩]⟩

theorem upload_media_wait_eq_false (l : List UploadAttempt)
    (h : ∀ a ∈ l, a ≠ UploadAttempt.ready) : upload_media_wait l = false := by
  induction l with
  | nil => rfl
  | cons a t ih =>
    have ha := h a (List.mem_cons_self a t)
    have ht : ∀ x ∈ t, x ≠ UploadAttempt.ready := fun x hx => h x (List.mem_cons_of_mem a hx)
    cases a with
    | checkRaised => simpa [upload_media_wait] using ih ht
    | notReady => simpa [upload_media_wait] using ih ht
    | ready => exact absurd rfl ha

theorem poll_loop_ghost_prefix (pre rest : List AttemptEnv)
    (hpre : ∀ a ∈ pre, poll_continues a = true) :
    poll_loop (pre ++ AttemptEnv.ghost true :: rest) =
      ⟨PollStep.ghostRestart, 1, pre.length + 1⟩ := by
  induction pre with
  | nil => simp [poll_loop]
  | cons a t ih =>
    have ha := hpre a (List.mem_cons_self a t)
    have ht : ∀ x ∈ t, poll_continues x = true := fun x hx => hpre x (List.mem_cons_of_mem a hx)
    have hne : (t ++ AttemptEnv.ghost true :: rest).isEmpty = false := by
      simp [List.isEmpty_eq_false_iff_exists_mem]
    cases a with
    | fetchError =>
      simp [poll_loop, hne, ih ht]
    | ghost d => simp [poll_continues] at ha
    | media fb hs =>
      cases fb with
      | false => simp [poll_loop, ih ht]
      | true =>
        cases hs with
        | none => simp [poll_loop, hne, ih ht]
        | some code =>
          have hcode : ¬ code = 200 := by
            by_contra hc
            subst hc
            simp [poll_continues] at ha
          simp [poll_loop, hcode, ih ht]

/-- C6: for every parsed probe output, the basic validator is_valid_mp4
accepts exactly when the duration lies in (0, 900] seconds, the byte size
is at most 1_000_000_000, and at least one stream has codec kind video;
in particular it rejects every probe output with duration ≤ 0 or above 900. -/
theorem claim6_is_valid_mp4_iff (info : ProbeInfo) :
    is_valid_mp4 true (ProbeOutcome.ok info) = true ↔
      (0 < info.duration ∧ info.duration ≤ 900 ∧ info.size ≤ 1000000000 ∧
       (info.streams.any fun s => s.codec_type == "video") = true) := by
  by_cases h1 : info.duration ≤ 0 ∨ 900 < info.duration
  · have hv : is_valid_mp4 true (.ok info) = false := by
      simp [is_valid_mp4, h1]
    rw [hv]
    simp only [Bool.false_eq_true, false_iff]
    rintro ⟨hd, hd2, -, -⟩
    rcases h1 with h | h
    · exact absurd hd (not_lt.mpr h)
    · exact absurd h (not_lt.mpr hd2)
  · by_cases h2 : 1000000000 < info.size
    · have hv : is_valid_mp4 true (.ok info) = false := by
        simp [is_valid_mp4, h1, h2]
      rw [hv]
      simp only [Bool.false_eq_true, false_iff]
      rintro ⟨-, -, hs, -⟩
      omega
    · by_cases h3 : (info.streams.any fun s => s.codec_type == "video") = true
      · have hv : is_valid_mp4 true (.ok info) = true := by
          simp [is_valid_mp4, h1, h2, h3]
        rw [hv]
        push_neg at h1
        simp only [true_iff]
        exact ⟨h1.1, h1.2, le_of_not_lt h2, h3⟩
      · have hv : is_valid_mp4 true (.ok info) = false := by
          simp [is_valid_mp4, h1, h2, h3]
        rw [hv]
        simp only [Bool.false_eq_true, false_iff]
        rintro ⟨-, -, -, hs⟩
        exact h3 hs

/-- Witness for C6 at a healthy 30-second, 50 MB, video+audio probe. -/
theorem claim6_is_valid_mp4_iff_witness :
    is_valid_mp4 true (ProbeOutcome.ok sampleGoodInfo) = true :=
  (claim6_is_valid_mp4_iff sampleGoodInfo).mpr (by decide)

/-- C7: for every parsed probe output, the strict validator validate_video
rejects when no audio stream is present and rejects any duration below 2
seconds, while the lighter validator is_valid_mp4 accepts an audio-free
probe output satisfying its duration, size and video-stream conditions. -/
theorem claim7_audio_requirements (info : ProbeInfo) :
    ((info.streams.any fun s => s.codec_type == "audio") = false →
      validate_video true (ProbeOutcome.ok info) = false)
    ∧ (info.duration < 2 → validate_video true (ProbeOutcome.ok info) = false)
    ∧ ((info.streams.any fun s => s.codec_type == "audio") = false →
      0 < info.duration → info.duration ≤ 900 → info.size ≤ 1000000000 →
      (info.streams.any fun s => s.codec_type == "video") = true →
      is_valid_mp4 true (ProbeOutcome.ok info) = true) := by
  refine ⟨?_, ?_, ?_⟩
  · intro h
    by_cases hd : info.duration < 2
    · simp [validate_video, hd]
    · simp [validate_video, hd, h]
  · intro h
    simp [validate_video, h]
  · intro _ h1 h2 h3 h4
    have hno : ¬ (info.duration ≤ 0 ∨ 900 < info.duration) := by
      push_neg
      exact ⟨h1, h2⟩
    simp [is_valid_mp4, hno, not_lt.mpr h3, h4]

/-- Witness for C7: an audio-free probe is rejected by the strict validator
and accepted by the lighter one; a one-second probe is rejected strictly. -/
theorem claim7_audio_requirements_witness :
    validate_video true (ProbeOutcome.ok noAudioInfo) = false ∧
    validate_video true (ProbeOutcome.ok shortClipInfo) = false ∧
    is_valid_mp4 true (ProbeOutcome.ok noAudioInfo) = true :=
  ⟨(claim7_audio_requirements noAudioInfo).1 (by decide),
   (claim7_audio_requirements shortClipInfo).2.1 (by decide),
   (claim7_audio_requirements noAudioInfo).2.2 (by decide) (by decide) (by decide)
     (by decide) (by decide)⟩

/-- C8: when ffprobe is unavailable on the system, both validators skip
validation and return a pass, whatever the artifact would have probed as. -/
theorem claim8_ffprobe_unavailable_passes (probe : ProbeOutcome) :
    validate_video false probe = true ∧ is_valid_mp4 false probe = true :=
  ⟨rfl, rfl⟩

/-- C4 is a code bug: on an HTTP 200 lease response whose body lacks both
the action URL and the fields mapping, the raised invalid-lease Exception
has no response attribute, so get_video_upload_lease's conditional re-raise
is skipped and the function silently returns None, while the sibling
get_thumbnail_upload_lease re-raises as the spec describes. -/
theorem claim4_video_lease_swallows_error :
    get_video_upload_lease ⟨true, false, false⟩ = LeaseOutcome.noneReturned ∧
    get_thumbnail_upload_lease ⟨true, false, false⟩ =
      LeaseOutcome.raised LeaseError.invalidLease :=
  ⟨rfl, rfl⟩

/-- C9 counterexample: a successful HTTP exchange whose XML body contains
a present but empty Location element makes upload_to_s3 return a missing
(None) reference without raising, refuting the claim that it never
silently returns a partial or missing reference. -/
theorem claim9_empty_location_counterexample :
    upload_to_s3 ⟨true, some none⟩ = S3Outcome.returned none := rfl

/-- C9 amended: upload_to_s3 raises exactly when the HTTP call errors or
the Location element is absent; when the element is present it returns
that element's text, which is a missing (None) reference for an empty
element. -/
theorem claim9_upload_to_s3_amended (resp : S3Response) :
    (upload_to_s3 resp = S3Outcome.raised ↔
      (resp.http_ok = false ∨ resp.location = none))
    ∧ (∀ t, resp.http_ok = true → resp.location = some t →
      upload_to_s3 resp = S3Outcome.returned t) := by
  obtain ⟨ok, loc⟩ := resp
  cases ok <;> cases loc <;> simp [upload_to_s3]

/-- Witness for C9 amended: a present Location element with text is
returned as the location reference. -/
theorem claim9_upload_to_s3_amended_witness :
    upload_to_s3 ⟨true, some (some "https://bucket.s3/key")⟩ =
      S3Outcome.returned (some "https://bucket.s3/key") :=
  (claim9_upload_to_s3_amended ⟨true, some (some "https://bucket.s3/key")⟩).2
    "https://bucket.s3/key" rfl rfl

/-- C3 counterexample: a 1000-second artifact re-encoded by the
constraint-trim policy is returned as converted data while the run's event
trace contains no validator call at all, refuting the claim that both
policies re-check their output before returning it. -/
theorem claim3_trim_unvalidated_counterexample :
    validate_and_convert_video ⟨some (1000, 50000000), true⟩ =
      (some TrimReturn.convertedData,
       [TrimEvent.probeCall, TrimEvent.encodeCall [ConversionParam.timeLimit 840]]) := by
  decide

/-- C3 amended: the resize policy convert_video only returns its encoded
output after an is_valid_mp4 re-check that passed, while the constraint-trim
policy validate_and_convert_video never performs any validator re-check. -/
theorem claim3_revalidation_amended :
    (∀ env : ConvertEnv, (convert_video env).1 = ConvertReturn.convertedOutput →
      ConvertEvent.validatorCall true ∈ (convert_video env).2)
    ∧ (∀ env : TrimEnv, ∀ passed : Bool,
      TrimEvent.validatorCall passed ∉ (validate_and_convert_video env).2) := by
  constructor
  · rintro ⟨ff, dims, eok, oa, op⟩ h
    cases ff with
    | false => simp [convert_video] at h
    | true =>
      cases dims with
      | none => simp [convert_video] at h
      | some d =>
        cases eok with
        | false => simp [convert_video] at h
        | true =>
          by_cases hv : is_valid_mp4 oa op = true
          · simp [convert_video, hv]
          · simp [convert_video, hv] at h
  · rintro ⟨probe, eok⟩ passed
    cases probe with
    | none => simp [validate_and_convert_video]
    | some ds =>
      obtain ⟨d, s⟩ := ds
      simp only [validate_and_convert_video]
      split_ifs <;> simp

/-- Witness for C3 amended: a successful resize run carries a passed
validator call in its trace; a pass-through trim run carries none. -/
theorem claim3_revalidation_amended_witness :
    ConvertEvent.validatorCall true ∈ (convert_video convertOkEnv).2 ∧
    TrimEvent.validatorCall true ∉ (validate_and_convert_video ⟨some (2, 30), true⟩).2 :=
  ⟨claim3_revalidation_amended.1 convertOkEnv (by decide),
   claim3_revalidation_amended.2 ⟨some (2, 30), true⟩ true⟩

/-- C5: the constraint-trim policy caps the duration with a -t 840
parameter when it exceeds 840 s; re-encodes with video bitrate
floor(700_000_000 * 8 / duration) when the size exceeds 1 GB; passes the
artifact through unchanged when neither constraint is violated; and yields
none (the caller's failure value) when the encode fails. -/
theorem claim5_trim_policy (d : ℚ) (s : ℕ) :
    (840 < d →
      validate_and_convert_video ⟨some (d, s), true⟩ =
        (some TrimReturn.convertedData,
         [TrimEvent.probeCall, TrimEvent.encodeCall (trim_params d s)]) ∧
      ConversionParam.timeLimit 840 ∈ trim_params d s)
    ∧ (1000000000 < s → 0 < d →
      validate_and_convert_video ⟨some (d, s), true⟩ =
        (some TrimReturn.convertedData,
         [TrimEvent.probeCall, TrimEvent.encodeCall (trim_params d s)]) ∧
      ConversionParam.videoBitrate ⌊(700000000 : ℚ) * 8 / d⌋ ∈ trim_params d s)
    ∧ (d ≤ 840 → s ≤ 1000000000 → ∀ eok : Bool,
      validate_and_convert_video ⟨some (d, s), eok⟩ =
        (some TrimReturn.originalData, [TrimEvent.probeCall]))
    ∧ ((840 < d ∨ 1000000000 < s) →
      (validate_and_convert_video ⟨some (d, s), false⟩).1 = none) := by
  refine ⟨?_, ?_, ?_, ?_⟩
  · intro h
    have hd0 : ¬ (1000000000 < s ∧ d = 0) := by
      rintro ⟨-, rfl⟩
      norm_num at h
    constructor
    · simp [validate_and_convert_video, hd0, Or.inl h]
    · simp only [trim_params, if_pos h]
      exact List.mem_append_left _ (List.mem_singleton.mpr rfl)
  · intro hs hd
    have hd0 : ¬ (1000000000 < s ∧ d = 0) := by
      rintro ⟨-, rfl⟩
      exact absurd hd (lt_irrefl 0)
    constructor
    · simp [validate_and_convert_video, hd0, Or.inr hs]
    · have hq : ¬ ((700000000 : ℚ) * 8 / d < 0) := by
        push_neg
        positivity
      simp only [trim_params, if_pos hs, pyInt, if_neg hq]
      exact List.mem_append_right _ (List.mem_singleton.mpr rfl)
  · intro h1 h2 eok
    have hd0 : ¬ (1000000000 < s ∧ d = 0) := by
      rintro ⟨hs, -⟩
      omega
    have hno : ¬ (840 < d ∨ 1000000000 < s) := by
      push_neg
      exact ⟨h1, h2⟩
    simp [validate_and_convert_video, hd0, hno]
  · intro h
    by_cases hd0 : 1000000000 < s ∧ d = 0
    · simp [validate_and_convert_video, hd0]
    · simp [validate_and_convert_video, hd0, h]

/-- Witness for C5: a 1000-second artifact is capped with -t 840, and an
oversize artifact whose encode fails yields the failure value none. -/
theorem claim5_trim_policy_witness :
    (validate_and_convert_video ⟨some (1000, 50000000), true⟩ =
      (some TrimReturn.convertedData,
       [TrimEvent.probeCall, TrimEvent.encodeCall (trim_params 1000 50000000)]) ∧
     ConversionParam.timeLimit 840 ∈ trim_params 1000 50000000) ∧
    (validate_and_convert_video ⟨some (30, 2000000000), false⟩).1 = none :=
  ⟨(claim5_trim_policy 1000 50000000).1 (by norm_num),
   (claim5_trim_policy 30 2000000000).2.2.2 (Or.inr (by norm_num))⟩

/-- C1: whenever a poll attempt of safe_submit_video fetches the handle
and finds its media payload absent (after any run of attempts that merely
continued polling), the invocation issues exactly one delete call, stops
fetching that handle (its fetch count is the attempts used so far), and
performs exactly one recursive re-invocation of the whole submission
pipeline, whose result it returns. -/
theorem claim1_ghost_single_delete_restart (f : ℕ) (envs : ℕ → SubmitEnv)
    (pre rest : List AttemptEnv)
    (hv : is_valid_mp4 (envs 0).ffprobe_available (envs 0).preProbe = true)
    (hd : (envs 0).direct = none)
    (hp : (envs 0).prawOk = true)
    (hf : (envs 0).found = true)
    (hsplit : pollEnvs (envs 0) = pre ++ AttemptEnv.ghost true :: rest)
    (hpre : ∀ a ∈ pre, poll_continues a = true) :
    run_once_exc (envs 0) =
      Except.ok (OnceOutcome.restart ⟨PollStep.ghostRestart, 1, pre.length + 1⟩) ∧
    safe_submit_video (f + 1) envs = safe_submit_video f (fun i => envs (i + 1)) := by
  have h1 : run_once_exc (envs 0) =
      Except.ok (OnceOutcome.restart ⟨PollStep.ghostRestart, 1, pre.length + 1⟩) := by
    unfold run_once_exc
    rw [hv, hd, hp, hf, hsplit, poll_loop_ghost_prefix pre rest hpre]
    rfl
  refine ⟨h1, ?_⟩
  have hexc : safe_submit_exc (f + 1) envs =
      match safe_submit_exc f (fun i => envs (i + 1)) with
      | .error _ => Except.ok SubmitOutcome.noneOut
      | .ok r => Except.ok r := by
    simp only [safe_submit_exc, h1]
  cases hrec : safe_submit_exc f (fun i => envs (i + 1)) with
  | ok r => simp [safe_submit_video, hexc, hrec]
  | error pe => simp [safe_submit_video, hexc, hrec]

/-- Witness for C1: an invocation whose first fetch sees unready media and
whose second fetch sees a ghost deletes once, fetches twice in total, and
hands control to the single recursive restart. -/
theorem claim1_ghost_single_delete_restart_witness :
    run_once_exc ghostEnv =
      Except.ok (OnceOutcome.restart ⟨PollStep.ghostRestart, 1, 2⟩) ∧
    safe_submit_video 1 (fun _ => ghostEnv) = safe_submit_video 0 (fun _ => ghostEnv) := by
  have h := claim1_ghost_single_delete_restart 0 (fun _ => ghostEnv)
    [AttemptEnv.media true (some 404)] (List.replicate 13 (AttemptEnv.ghost true))
    (by decide) (by decide) (by decide) (by decide) (by decide) (by decide)
  exact ⟨h.1, h.2⟩

/-- C2 counterexample: an invocation of the validate-heavy path whose
media payload is present but never passes the HEAD readiness check on any
of the 15 attempts returns None, not the already-created handle, refuting
the claim for the 15-attempt path. -/
theorem claim2_timeout_counterexample :
    safe_submit_video 1 (fun _ => timeoutEnv) ≠ SubmitOutcome.handleOut ∧
    safe_submit_video 1 (fun _ => timeoutEnv) = SubmitOutcome.noneOut := by
  constructor <;> decide

/-- C2 amended: when the media payload never becomes ready within the
retry ceiling, neither poller raises; the simpler 6-attempt path of
upload_to_reddit still returns the created handle's permalink, but the
validate-heavy 15-attempt path of safe_submit_video returns None instead
of the handle. -/
theorem claim2_timeout_amended :
    (∀ env : ℕ → UploadAttempt, (∀ i, i < 6 → env i ≠ UploadAttempt.ready) →
      upload_to_reddit_poll env = UploadPollResult.permalinkProcessing)
    ∧ (∀ (f : ℕ) (envs : ℕ → SubmitEnv),
      is_valid_mp4 (envs 0).ffprobe_available (envs 0).preProbe = true →
      (envs 0).direct = none → (envs 0).prawOk = true → (envs 0).found = true →
      (poll_loop (pollEnvs (envs 0))).step = PollStep.timedOutNone →
      safe_submit_video (f + 1) envs = SubmitOutcome.noneOut) := by
  constructor
  · intro env h
    have hw : upload_media_wait ((List.range 6).map env) = false := by
      apply upload_media_wait_eq_false
      intro a ha
      simp only [List.mem_map, List.mem_range] at ha
      obtain ⟨i, hi, rfl⟩ := ha
      exact h i hi
    simp [upload_to_reddit_poll, hw]
  · intro f envs hv hd hp hf hstep
    have h1 : run_once_exc (envs 0) =
        Except.ok (OnceOutcome.timedOut (poll_loop (pollEnvs (envs 0)))) := by
      simp [run_once_exc, hv, hd, hp, hf, hstep]
    simp [safe_submit_video, safe_submit_exc, h1]

/-- Witness for C2 amended at never-ready environments for both paths. -/
theorem claim2_timeout_amended_witness :
    upload_to_reddit_poll (fun _ => UploadAttempt.notReady) =
      UploadPollResult.permalinkProcessing ∧
    safe_submit_video 1 (fun _ => timeoutEnv) = SubmitOutcome.noneOut :=
  ⟨claim2_timeout_amended.1 (fun _ => UploadAttempt.notReady)
     (fun _ _ h => UploadAttempt.noConfusion h),
   claim2_timeout_amended.2 0 (fun _ => timeoutEnv)
     (by decide) (by decide) (by decide) (by decide) (by decide)⟩

/-- C10: safe_submit_video is total with respect to errors: for every
positive recursion budget and every environment, including those in which
validation, the PRAW fallback, the post search, any poll attempt, the
ghost delete or the recursion itself fails, its outer handler catches the
escaped exception, so the call resolves to a normal value (a post URL, a
handle, or None) and never propagates an exception to its caller. -/
theorem claim10_safe_submit_total (fuel : ℕ) (envs : ℕ → SubmitEnv)
    (h : 0 < fuel) : exceptOk (safe_submit_exc fuel envs) = true := by
  cases fuel with
  | zero => exact absurd h (lt_irrefl 0)
  | succ f =>
    simp only [safe_submit_exc]
    split
    · rfl
    · rfl

/-- Witness for C10 at a concrete ghost-then-recursion-exhausted run. -/
theorem claim10_safe_submit_total_witness :
    exceptOk (safe_submit_exc 1 (fun _ => ghostEnv)) = true :=
  claim10_safe_submit_total 1 (fun _ => ghostEnv) (by decide)
